import Mathlib

/-!
Shallow embedding of `src/create-album.py`, an interactive Immich album
management script.  Paths are strings of characters and the path separator
is `'/'` (the script targets a POSIX system, so `os.sep = "/"`).  HTTP
calls are modelled by oracles (`Server`); every effectful function returns
its value together with the list of HTTP requests it issued and the list
of lines it printed.
-/

/-- Python `str.startswith` on the underlying character lists: `listIsPfx p l`
is true when `p` is an initial segment of `l`. -/
def listIsPfx : List Char → List Char → Bool
  | [], _ => true
  | _ :: _, [] => false
  | a :: as, b :: bs => a == b && listIsPfx as bs

/-- Python `s.startswith(p)`. -/
def pyStartsWith (s p : String) : Bool :=
  listIsPfx p.data s.data

/-- Python slicing `s[n:]` (Python slices strings by characters). -/
def pySliceFrom (s : String) (n : Nat) : String :=
  ⟨s.data.drop n⟩

/-- Python `s.lstrip(os.sep)`: removes every leading `'/'`. -/
def lstripSep (s : String) : String :=
  ⟨s.data.dropWhile (fun c => c == '/')⟩

/-- `convert_to_immich_path` (src/create-album.py:90-96).  The global
`LIBRARY_ROOT` is `none` before the user sets it; Python's
`if LIBRARY_ROOT and abs_path.startswith(LIBRARY_ROOT)` treats `None` and
the empty string as falsy.  The match branch computes
`abs_path[len(LIBRARY_ROOT):].lstrip(os.sep)`. -/
def convert_to_immich_path (LIBRARY_ROOT : Option String) (abs_path : String) : String :=
  match LIBRARY_ROOT with
  | none => abs_path
  | some root =>
    if root != "" && pyStartsWith abs_path root then
      lstripSep (pySliceFrom abs_path root.length)
    else
      abs_path

theorem str_data_append (a b : String) : (a ++ b).data = a.data ++ b.data := by
  cases a
  cases b
  rfl

theorem listIsPfx_self_append (l m : List Char) : listIsPfx l (l ++ m) = true := by
  induction l with
  | nil => rfl
  | cons a as ih => simp [listIsPfx, ih]

theorem pySliceFrom_append (a b : String) : pySliceFrom (a ++ b) a.length = b := by
  unfold pySliceFrom
  rw [str_data_append]
  show (⟨(a.data ++ b.data).drop a.data.length⟩ : String) = b
  rw [List.drop_left]

theorem pyStartsWith_append (a b : String) : pyStartsWith (a ++ b) a = true := by
  unfold pyStartsWith
  rw [str_data_append]
  exact listIsPfx_self_append _ _

/-- On a character list whose leading slashes were all removed, no list that
begins with a slash is a prefix. -/
theorem listIsPfx_slash_dropWhile (t l : List Char) :
    listIsPfx ('/' :: t) (l.dropWhile (fun c => c == '/')) = false := by
  induction l with
  | nil => rfl
  | cons c cs ih =>
    by_cases hc : (c == '/') = true
    · rw [List.dropWhile_cons]
      simp only [hc]
      exact ih
    · have hc' : (c == '/') = false := by
        cases h : (c == '/') with
        | false => rfl
        | true => exact absurd h hc
      have hne : c ≠ '/' := by
        intro h
        rw [h] at hc'
        simp at hc'
      have hsl : (('/' : Char) == c) = false := by
        apply beq_eq_false_iff_ne.mpr
        exact fun h => hne h.symm
      rw [List.dropWhile_cons]
      simp only [hc']
      simp [listIsPfx, hsl]

/-- C1 counterexample: with the library root `/lib` set and input `/lib//a`
(which starts with the library root), the code returns `a` — it removes all
leading separators, not exactly one; removing exactly one would give `/a`. -/
theorem convert_double_sep_counterexample :
    pyStartsWith "/lib//a" "/lib" = true ∧
    convert_to_immich_path (some "/lib") "/lib//a" = "a" ∧
    ("a" : String) ≠ "/a" := by
  refine ⟨by decide, by decide, by decide⟩

/-- C1 (amended): for every absolute path that starts with the library root
(library root set and non-empty), `convert_to_immich_path` returns the path
with exactly the library-root prefix and all leading path separators
removed, as a pure string operation. -/
theorem convert_strips_root_and_all_leading_seps (root r : String) (h : root ≠ "") :
    convert_to_immich_path (some root) (root ++ r) = lstripSep r := by
  have hb : (root != "") = true := by
    simp [bne_iff_ne]
    exact h
  have hp : pyStartsWith (root ++ r) root = true := pyStartsWith_append root r
  simp [convert_to_immich_path, hb, hp, pySliceFrom_append]

theorem convert_strips_root_witness :
    ("/lib" : String) ≠ "" ∧
    convert_to_immich_path (some "/lib") ("/lib" ++ "//a") = lstripSep "//a" :=
  ⟨by decide, convert_strips_root_and_all_leading_seps "/lib" "//a" (by decide)⟩

/-- C2: for every absolute path that does not start with the library root,
`convert_to_immich_path` returns the input string unchanged. -/
theorem convert_leaves_non_library_paths_unchanged (root p : String)
    (h : pyStartsWith p root = false) :
    convert_to_immich_path (some root) p = p := by
  simp [convert_to_immich_path, h]

theorem convert_leaves_non_library_paths_unchanged_witness :
    pyStartsWith "/other/x" "/lib" = false ∧
    convert_to_immich_path (some "/lib") "/other/x" = "/other/x" :=
  ⟨by decide, convert_leaves_non_library_paths_unchanged "/lib" "/other/x" (by decide)⟩

/-- C9: `convert_to_immich_path` is idempotent whenever the library root is a
non-empty absolute path (it begins with the path separator). -/
theorem convert_to_immich_path_idempotent (root p : String)
    (h : pyStartsWith root "/" = true) :
    convert_to_immich_path (some root) (convert_to_immich_path (some root) p) =
      convert_to_immich_path (some root) p := by
  obtain ⟨t, ht⟩ : ∃ t, root.data = '/' :: t := by
    cases hr : root.data with
    | nil =>
      exfalso
      unfold pyStartsWith at h
      rw [hr] at h
      simp [listIsPfx] at h
    | cons c cs =>
      unfold pyStartsWith at h
      rw [hr] at h
      have : (('/' : Char) == c) = true := by
        cases hb : (('/' : Char) == c) with
        | true => rfl
        | false =>
          rw [show ("/" : String).data = ['/'] from rfl] at h
          simp [listIsPfx, hb] at h
      have hc : c = '/' := (eq_of_beq this).symm
      subst hc
      exact ⟨cs, rfl⟩
  cases hcond : (root != "" && pyStartsWith p root) with
  | false =>
    have hcp : convert_to_immich_path (some root) p = p := by
      simp only [convert_to_immich_path, hcond]
      simp
    simp only [hcp]
  | true =>
    have h2 : pyStartsWith (lstripSep (pySliceFrom p root.length)) root = false := by
      unfold pyStartsWith lstripSep
      rw [ht]
      exact listIsPfx_slash_dropWhile t _
    have hcp : convert_to_immich_path (some root) p =
        lstripSep (pySliceFrom p root.length) := by
      simp only [convert_to_immich_path, hcond]
      simp
    rw [hcp]
    simp [convert_to_immich_path, h2]

theorem convert_to_immich_path_idempotent_witness :
    pyStartsWith "/lib" "/" = true ∧
    convert_to_immich_path (some "/lib") (convert_to_immich_path (some "/lib") "/lib//x") =
      convert_to_immich_path (some "/lib") "/lib//x" :=
  ⟨by decide, convert_to_immich_path_idempotent "/lib" "/lib//x" (by decide)⟩

/-- An HTTP request issued by the script. -/
inductive Effect where
  | getFolder (path : String)
  | getAlbums
  | postCreateAlbum (albumName : String) (assetIds : List String)
  | putAddAssets (albumId : String) (assetIds : List String)
  deriving DecidableEq

/-- Whether the request mutates server state: the album-create POST and the
asset-append PUT do, the two GET queries do not. -/
def Effect.isMutating : Effect → Bool
  | .postCreateAlbum _ _ => true
  | .putAddAssets _ _ => true
  | _ => false

/-- An Immich album as the script reads it: `album.get("albumName")` and
`album.get("id")` may be absent, hence `Option`. -/
structure Album where
  albumName : Option String
  id : Option String
  deriving DecidableEq

/-- Oracle for the Immich server: each request either returns a value or
fails with a `requests.RequestException` message. -/
structure Server where
  folderAssets : String → Except String (List String)
  albums : Except String (List Album)
  createAlbumResp : String → List String → Except String Unit
  addAssetsResp : String → List String → Except String Unit

/-- Result of running a piece of the script: the returned value, the HTTP
requests it issued, and the lines it printed. -/
structure Out (α : Type) where
  val : α
  effects : List Effect
  prints : List String
  deriving DecidableEq

/-- `get_folder_assets` (src/create-album.py:108-122): converts the path,
issues one GET; on failure it prints an error and returns the empty list
(the exception is caught at the call site and never propagates). -/
def get_folder_assets (LIBRARY_ROOT : Option String) (srv : Server)
    (abs_folder_path : String) : Out (List String) :=
  let immich_path := convert_to_immich_path LIBRARY_ROOT abs_folder_path
  match srv.folderAssets immich_path with
  | .ok asset_ids =>
    { val := asset_ids, effects := [.getFolder immich_path], prints := [] }
  | .error e =>
    { val := [], effects := [.getFolder immich_path],
      prints := ["[ERROR] Failed to get assets for '" ++ immich_path ++ "': " ++ e] }

/-- Python `os.path.join` for one component (posixpath). -/
def pyPathJoin (a b : String) : String :=
  if pyStartsWith b "/" then b
  else if a = "" then b
  else if a.data.getLast? = some '/' then a ++ b
  else a ++ "/" ++ b

/-- `get_all_subdirectories` (src/create-album.py:99-105): `os.walk` is
modelled by its yield sequence, a list of `(root, dirs)` pairs in walk
order; the function joins every yielded directory name onto its root. -/
def get_all_subdirectories (walk : List (String × List String)) : List String :=
  (walk.map (fun rd => rd.2.map (fun d => pyPathJoin rd.1 d))).flatten

/-- The `for subdir in subdirs` loop of `get_all_assets_recursive`
(src/create-album.py:136-141): queries each subdirectory, extends the
accumulated list, and prints a note for each non-empty subdirectory. -/
def subdir_assets_loop (LIBRARY_ROOT : Option String) (srv : Server) :
    List String → Out (List String)
  | [] => { val := [], effects := [], prints := [] }
  | subdir :: rest =>
    let s := get_folder_assets LIBRARY_ROOT srv subdir
    let found :=
      if s.val ≠ [] then
        ["  Found " ++ toString s.val.length ++ " assets in: " ++
          convert_to_immich_path LIBRARY_ROOT subdir]
      else []
    let r := subdir_assets_loop LIBRARY_ROOT srv rest
    { val := s.val ++ r.val, effects := s.effects ++ r.effects,
      prints := s.prints ++ found ++ r.prints }

/-- Python `list(dict.fromkeys(l))`: keys are inserted in order and a key
already present is skipped, so the first occurrence of each key survives. -/
def pyDictFromKeys (l : List String) : List String :=
  l.foldl (fun acc a => if a ∈ acc then acc else acc ++ [a]) []

/-- `get_all_assets_recursive` (src/create-album.py:125-145): root folder
first, then every subdirectory in walk order, deduplicated with
`dict.fromkeys`. -/
def get_all_assets_recursive (LIBRARY_ROOT : Option String) (srv : Server)
    (root_folder : String) (walk : List (String × List String)) :
    Out (List String) :=
  let root := get_folder_assets LIBRARY_ROOT srv root_folder
  let loop := subdir_assets_loop LIBRARY_ROOT srv (get_all_subdirectories walk)
  { val := pyDictFromKeys (root.val ++ loop.val),
    effects := root.effects ++ loop.effects,
    prints := root.prints ++ loop.prints }

/-- `get_all_albums` (src/create-album.py:148-158): one GET; on failure it
prints an error and returns the empty list. -/
def get_all_albums (srv : Server) : Out (List Album) :=
  match srv.albums with
  | .ok albums => { val := albums, effects := [.getAlbums], prints := [] }
  | .error e =>
    { val := [], effects := [.getAlbums],
      prints := ["[ERROR] Failed to get albums: " ++ e] }

/-- `album_exists` (src/create-album.py:161-164). -/
def album_exists (srv : Server) (album_name : String) : Out Bool :=
  let r := get_all_albums srv
  { val := r.val.any (fun album => album.albumName == some album_name),
    effects := r.effects, prints := r.prints }

/-- `create_album` (src/create-album.py:167-189).  The Python function
returns `None` on every path (all its `return` statements are bare), so its
value is modelled as `Option Unit` and is always `none`. -/
def create_album (srv : Server) (album_name : String) (asset_ids : List String)
    (dry_run : Bool) : Out (Option Unit) :=
  let ex := album_exists srv album_name
  if ex.val then
    { val := none, effects := ex.effects,
      prints := ex.prints ++ ["[SKIP] Album '" ++ album_name ++ "' already exists."] }
  else if dry_run then
    { val := none, effects := ex.effects,
      prints := ex.prints ++ ["[DRY-RUN] Would create album '" ++ album_name ++
        "' with " ++ toString asset_ids.length ++ " assets."] }
  else
    match srv.createAlbumResp album_name asset_ids with
    | .ok _ =>
      { val := none, effects := ex.effects ++ [.postCreateAlbum album_name asset_ids],
        prints := ex.prints ++ ["[OK] Album created: " ++ album_name ++ " (" ++
          toString asset_ids.length ++ " assets)"] }
    | .error e =>
      { val := none, effects := ex.effects ++ [.postCreateAlbum album_name asset_ids],
        prints := ex.prints ++ ["[ERROR] Failed to create album '" ++ album_name ++ "': " ++ e] }

/-- `add_assets_to_album` (src/create-album.py:192-212). -/
def add_assets_to_album (srv : Server) (album_id : String)
    (asset_ids : List String) (dry_run : Bool) : Out Bool :=
  if asset_ids = [] then
    { val := false, effects := [], prints := ["[ERROR] No assets to add."] }
  else if dry_run then
    { val := true, effects := [],
      prints := ["[DRY-RUN] Would add " ++ toString asset_ids.length ++ " assets to album."] }
  else
    match srv.addAssetsResp album_id asset_ids with
    | .ok _ =>
      { val := true, effects := [.putAddAssets album_id asset_ids],
        prints := ["[OK] Added " ++ toString asset_ids.length ++ " assets to album."] }
    | .error e =>
      { val := false, effects := [.putAddAssets album_id asset_ids],
        prints := ["[ERROR] Failed to add assets to album: " ++ e] }

/-- Last index of `'/'` in a character list. -/
def lastSlashIdx (l : List Char) : Option Nat :=
  ((l.enum.filter (fun p => p.2 == '/')).map (fun p => p.1)).getLast?

/-- Python `s.rstrip(os.sep)`. -/
def rstripSep (s : String) : String :=
  ⟨(s.data.reverse.dropWhile (fun c => c == '/')).reverse⟩

/-- Python `os.path.dirname` (posixpath): everything up to and including the
last separator, with trailing separators stripped unless the head consists
of separators only. -/
def pyDirname (p : String) : String :=
  let i := ((lastSlashIdx p.data).map (· + 1)).getD 0
  let head : String := ⟨p.data.take i⟩
  if head.data.any (fun c => c != '/') then rstripSep head else head

/-- The asset-collection step shared by `get_path_from_user`
(src/create-album.py:294-298) and `interactive_album_manager`
(src/create-album.py:374-378): a directory is aggregated recursively, while
a file falls back to one query on its containing directory.
`os.path.isdir` is the `target_is_dir` oracle and `os.walk` the `walk`
oracle. -/
def collect_target_assets (LIBRARY_ROOT : Option String) (srv : Server)
    (full_path : String) (target_is_dir : Bool)
    (walk : List (String × List String)) : Out (List String) :=
  if target_is_dir then get_all_assets_recursive LIBRARY_ROOT srv full_path walk
  else get_folder_assets LIBRARY_ROOT srv (pyDirname full_path)

/-- The album the user picks in `select_album_interactive`
(src/create-album.py:235-269): entering 0 creates a new album, any other
valid choice selects an existing one. -/
inductive AlbumChoice where
  | createNew (album_name : String)
  | existing (album_id : String) (album_name : String)

/-- The straight-line path of `interactive_album_manager`
(src/create-album.py:317-404) after the configuration prompts (which issue
no HTTP request): album selection (one album-list request, plus the
duplicate-name check of `get_new_album_name` when a new album is created),
the asset-count query of `get_path_from_user`, the re-collection of assets,
and the final create-or-append action.  Interactive retry loops are
modelled as a single accepted attempt. -/
def interactive_album_manager (LIBRARY_ROOT : Option String) (srv : Server)
    (choice : AlbumChoice) (target_path : String) (target_is_dir : Bool)
    (walk : List (String × List String)) (dry_run : Bool) : Out Unit :=
  let sel := get_all_albums srv
  let nameCheck : Out Bool :=
    match choice with
    | .createNew n => album_exists srv n
    | .existing _ _ => { val := false, effects := [], prints := [] }
  let q1 := collect_target_assets LIBRARY_ROOT srv target_path target_is_dir walk
  let q2 := collect_target_assets LIBRARY_ROOT srv target_path target_is_dir walk
  let pre := sel.effects ++ nameCheck.effects ++ q1.effects ++ q2.effects
  let prePrints := sel.prints ++ nameCheck.prints ++ q1.prints ++
    ["在该路径中找到 " ++ toString q1.val.length ++ " 个资源"] ++ q2.prints
  if q2.val = [] then
    { val := (), effects := pre,
      prints := prePrints ++ ["在路径 " ++ target_path ++ " 中未找到任何资源"] }
  else
    match choice with
    | .createNew album_name =>
      let c := create_album srv album_name q2.val dry_run
      let msg :=
        if c.val.isSome || dry_run then
          if dry_run then
            ["[DRY-RUN] 模拟完成：创建新相册 '" ++ album_name ++ "' 包含 " ++
              toString q2.val.length ++ " 个资源"]
          else
            ["成功创建新相册 '" ++ album_name ++ "' 包含 " ++
              toString q2.val.length ++ " 个资源"]
        else ["创建新相册失败"]
      { val := (), effects := pre ++ c.effects, prints := prePrints ++ c.prints ++ msg }
    | .existing album_id album_name =>
      let a := add_assets_to_album srv album_id q2.val dry_run
      let msg :=
        if a.val then
          if dry_run then
            ["[DRY-RUN] 模拟完成：将 " ++ toString q2.val.length ++
              " 个资源添加到相册 '" ++ album_name ++ "'"]
          else
            ["成功将 " ++ toString q2.val.length ++ " 个资源添加到相册 '" ++
              album_name ++ "'"]
        else ["添加资源到相册失败"]
      { val := (), effects := pre ++ a.effects, prints := prePrints ++ a.prints ++ msg }

/-- A concrete healthy server used by witnesses: the folder `a` reports
assets 1 and 2, the folder `b` reports assets 2 and 3 (the spec's example),
every other folder except the root reports asset 7, one album named
Holiday exists, and mutations succeed. -/
def sampleServer : Server :=
  { folderAssets := fun p =>
      .ok (if p = "a" then ["1", "2"] else if p = "b" then ["2", "3"]
        else if p = "" then [] else ["7"]),
    albums := .ok [{ albumName := some "Holiday", id := some "alb1" }],
    createAlbumResp := fun _ _ => .ok (),
    addAssetsResp := fun _ _ => .ok () }

/-- The spec example's directory layout: `/lib` with subdirectories
`/lib/a` and `/lib/b`, as an `os.walk` yield sequence. -/
def sampleWalk : List (String × List String) :=
  [("/lib", ["a", "b"]), ("/lib/a", []), ("/lib/b", [])]

/-- A concrete server on which every request fails. -/
def failServer : Server :=
  { folderAssets := fun _ => .error "boom",
    albums := .error "boom",
    createAlbumResp := fun _ _ => .error "boom",
    addAssetsResp := fun _ _ => .error "boom" }

/-- First-occurrence deduplication with an explicit set of already-seen
keys: the reference specification of `list(dict.fromkeys(l))`. -/
def dedupFirstAux : List String → List String → List String
  | _, [] => []
  | seen, a :: as =>
    if a ∈ seen then dedupFirstAux seen as else a :: dedupFirstAux (a :: seen) as

theorem dedupFirstAux_congr (as : List String) :
    ∀ s1 s2 : List String, (∀ x, x ∈ s1 ↔ x ∈ s2) →
      dedupFirstAux s1 as = dedupFirstAux s2 as := by
  induction as with
  | nil =>
    intro s1 s2 _
    rfl
  | cons a as ih =>
    intro s1 s2 hiff
    by_cases ha : a ∈ s1
    · have ha2 : a ∈ s2 := (hiff a).mp ha
      simp only [dedupFirstAux, if_pos ha, if_pos ha2]
      exact ih s1 s2 hiff
    · have ha2 : a ∉ s2 := fun h => ha ((hiff a).mpr h)
      simp only [dedupFirstAux, if_neg ha, if_neg ha2]
      refine congrArg (a :: ·) ?_
      refine ih (a :: s1) (a :: s2) ?_
      intro x
      simp [List.mem_cons, hiff x]

theorem pyDictFromKeys_foldl (as : List String) :
    ∀ acc : List String,
      as.foldl (fun acc a => if a ∈ acc then acc else acc ++ [a]) acc =
        acc ++ dedupFirstAux acc as := by
  induction as with
  | nil =>
    intro acc
    simp [dedupFirstAux]
  | cons a as ih =>
    intro acc
    by_cases ha : a ∈ acc
    · simp only [List.foldl_cons, if_pos ha, dedupFirstAux]
      exact ih acc
    · simp only [List.foldl_cons, if_neg ha, dedupFirstAux]
      rw [ih (acc ++ [a])]
      rw [dedupFirstAux_congr as (acc ++ [a]) (a :: acc)
        (by intro x; simp [List.mem_cons, List.mem_append, or_comm])]
      simp

theorem pyDictFromKeys_eq_aux (l : List String) :
    pyDictFromKeys l = dedupFirstAux [] l := by
  unfold pyDictFromKeys
  rw [pyDictFromKeys_foldl l []]
  simp

theorem mem_dedupFirstAux (l : List String) :
    ∀ (seen : List String) (x : String),
      x ∈ dedupFirstAux seen l ↔ x ∈ l ∧ x ∉ seen := by
  induction l with
  | nil =>
    intro seen x
    simp [dedupFirstAux]
  | cons a as ih =>
    intro seen x
    by_cases ha : a ∈ seen
    · rw [dedupFirstAux, if_pos ha, ih seen x]
      constructor
      · rintro ⟨h1, h2⟩
        exact ⟨List.mem_cons_of_mem a h1, h2⟩
      · rintro ⟨h1, h2⟩
        rcases List.mem_cons.mp h1 with h | h
        · subst h
          exact absurd ha h2
        · exact ⟨h, h2⟩
    · rw [dedupFirstAux, if_neg ha]
      constructor
      · intro hmem
        rcases List.mem_cons.mp hmem with h | h
        · subst h
          exact ⟨List.mem_cons_self x as, ha⟩
        · rw [ih (a :: seen) x] at h
          obtain ⟨h1, h2⟩ := h
          exact ⟨List.mem_cons_of_mem a h1, fun hx => h2 (List.mem_cons_of_mem a hx)⟩
      · rintro ⟨h1, h2⟩
        by_cases hxa : x = a
        · subst hxa
          exact List.mem_cons_self x _
        · rcases List.mem_cons.mp h1 with h | h
          · exact absurd h hxa
          · refine List.mem_cons_of_mem a ?_
            rw [ih (a :: seen) x]
            refine ⟨h, fun hx => ?_⟩
            rcases List.mem_cons.mp hx with h' | h'
            · exact hxa h'
            · exact h2 h'

theorem nodup_dedupFirstAux (l : List String) :
    ∀ seen : List String, (dedupFirstAux seen l).Nodup := by
  induction l with
  | nil =>
    intro seen
    simp [dedupFirstAux]
  | cons a as ih =>
    intro seen
    by_cases ha : a ∈ seen
    · rw [dedupFirstAux, if_pos ha]
      exact ih seen
    · rw [dedupFirstAux, if_neg ha]
      refine List.nodup_cons.mpr ⟨?_, ih (a :: seen)⟩
      intro hmem
      rw [mem_dedupFirstAux] at hmem
      exact hmem.2 (List.mem_cons_self a seen)

theorem sublist_dedupFirstAux (l : List String) :
    ∀ seen : List String, (dedupFirstAux seen l).Sublist l := by
  induction l with
  | nil =>
    intro seen
    simp [dedupFirstAux]
  | cons a as ih =>
    intro seen
    by_cases ha : a ∈ seen
    · rw [dedupFirstAux, if_pos ha]
      exact (ih seen).trans (List.sublist_cons_self a as)
    · rw [dedupFirstAux, if_neg ha]
      exact (ih (a :: seen)).cons₂ a

theorem subdir_assets_loop_val (LR : Option String) (srv : Server) (ds : List String) :
    (subdir_assets_loop LR srv ds).val =
      (ds.map (fun d => (get_folder_assets LR srv d).val)).flatten := by
  induction ds with
  | nil => rfl
  | cons d ds ih => simp [subdir_assets_loop, ih]

/-- C3: for every directory tree (an `os.walk` yield sequence) and every
folder-assets oracle, `get_all_assets_recursive` returns the concatenation
of the root directory's list followed by each descendant directory's list
in walk order, deduplicated by first occurrence (`dedupFirstAux`, the
specification of `dict.fromkeys`) with discovery order preserved (the
result is a sublist of the concatenation), each identifier appearing
exactly once (`Nodup`); on the spec's example (`/lib` with `/lib/a`
reporting 1,2 and `/lib/b` reporting 2,3) the result is 1,2,3. -/
theorem get_all_assets_recursive_dedups_in_order
    (LIBRARY_ROOT : Option String) (srv : Server) (root_folder : String)
    (walk : List (String × List String)) :
    ((get_all_assets_recursive LIBRARY_ROOT srv root_folder walk).val =
      pyDictFromKeys ((get_folder_assets LIBRARY_ROOT srv root_folder).val ++
        ((get_all_subdirectories walk).map
          (fun d => (get_folder_assets LIBRARY_ROOT srv d).val)).flatten)) ∧
    ((get_all_assets_recursive LIBRARY_ROOT srv root_folder walk).val =
      dedupFirstAux [] ((get_folder_assets LIBRARY_ROOT srv root_folder).val ++
        ((get_all_subdirectories walk).map
          (fun d => (get_folder_assets LIBRARY_ROOT srv d).val)).flatten)) ∧
    (get_all_assets_recursive LIBRARY_ROOT srv root_folder walk).val.Nodup ∧
    (∀ a, a ∈ (get_all_assets_recursive LIBRARY_ROOT srv root_folder walk).val ↔
      a ∈ (get_folder_assets LIBRARY_ROOT srv root_folder).val ++
        ((get_all_subdirectories walk).map
          (fun d => (get_folder_assets LIBRARY_ROOT srv d).val)).flatten) ∧
    (get_all_assets_recursive LIBRARY_ROOT srv root_folder walk).val.Sublist
      ((get_folder_assets LIBRARY_ROOT srv root_folder).val ++
        ((get_all_subdirectories walk).map
          (fun d => (get_folder_assets LIBRARY_ROOT srv d).val)).flatten) ∧
    (get_all_assets_recursive (some "/lib") sampleServer "/lib" sampleWalk).val =
      ["1", "2", "3"] := by
  have hval : (get_all_assets_recursive LIBRARY_ROOT srv root_folder walk).val =
      pyDictFromKeys ((get_folder_assets LIBRARY_ROOT srv root_folder).val ++
        ((get_all_subdirectories walk).map
          (fun d => (get_folder_assets LIBRARY_ROOT srv d).val)).flatten) := by
    simp [get_all_assets_recursive, subdir_assets_loop_val]
  have haux := pyDictFromKeys_eq_aux
    ((get_folder_assets LIBRARY_ROOT srv root_folder).val ++
      ((get_all_subdirectories walk).map
        (fun d => (get_folder_assets LIBRARY_ROOT srv d).val)).flatten)
  refine ⟨hval, hval.trans haux, ?_, ?_, ?_, by decide⟩
  · rw [hval, haux]
    exact nodup_dedupFirstAux _ []
  · intro a
    rw [hval, haux, mem_dedupFirstAux]
    simp
  · rw [hval, haux]
    exact sublist_dedupFirstAux _ []

theorem isMutating_getFolder (p : String) : (Effect.getFolder p).isMutating = false := rfl

theorem isMutating_getAlbums : Effect.getAlbums.isMutating = false := rfl

theorem get_folder_assets_effects (LR : Option String) (srv : Server) (p : String) :
    (get_folder_assets LR srv p).effects =
      [Effect.getFolder (convert_to_immich_path LR p)] := by
  cases h : srv.folderAssets (convert_to_immich_path LR p) with
  | ok v => simp [get_folder_assets, h]
  | error e => simp [get_folder_assets, h]

theorem get_all_albums_effects (srv : Server) :
    (get_all_albums srv).effects = [Effect.getAlbums] := by
  cases h : srv.albums with
  | ok v => simp [get_all_albums, h]
  | error e => simp [get_all_albums, h]

theorem album_exists_effects (srv : Server) (n : String) :
    (album_exists srv n).effects = [Effect.getAlbums] := by
  simp [album_exists, get_all_albums_effects]

theorem subdir_assets_loop_effects_not_mutating (LR : Option String) (srv : Server)
    (ds : List String) :
    ((subdir_assets_loop LR srv ds).effects.all fun e => !e.isMutating) = true := by
  induction ds with
  | nil => rfl
  | cons d ds ih =>
    simp [subdir_assets_loop, List.all_append, get_folder_assets_effects,
      isMutating_getFolder, ih]

theorem get_all_assets_recursive_effects_not_mutating (LR : Option String)
    (srv : Server) (rf : String) (walk : List (String × List String)) :
    ((get_all_assets_recursive LR srv rf walk).effects.all fun e => !e.isMutating) = true := by
  simp [get_all_assets_recursive, List.all_append, get_folder_assets_effects,
    isMutating_getFolder, subdir_assets_loop_effects_not_mutating]

theorem collect_target_assets_effects_not_mutating (LR : Option String) (srv : Server)
    (fp : String) (isd : Bool) (walk : List (String × List String)) :
    ((collect_target_assets LR srv fp isd walk).effects.all fun e => !e.isMutating) = true := by
  cases isd with
  | true => simp [collect_target_assets, get_all_assets_recursive_effects_not_mutating]
  | false => simp [collect_target_assets, get_folder_assets_effects, isMutating_getFolder]

theorem create_album_dry_effects (srv : Server) (n : String) (ids : List String) :
    (create_album srv n ids true).effects = [Effect.getAlbums] := by
  cases h : (album_exists srv n).val with
  | true => simp [create_album, h, album_exists_effects]
  | false => simp [create_album, h, album_exists_effects]

theorem add_assets_dry_effects (srv : Server) (aid : String) (ids : List String) :
    (add_assets_to_album srv aid ids true).effects = [] := by
  by_cases h : ids = []
  · simp [add_assets_to_album, h]
  · simp [add_assets_to_album, h]

/-- C4: with the simulate-only flag set, an entire run of the program issues
no mutating HTTP request (no album-create POST and no asset-append PUT),
and the mutating step instead prints the action it would have taken: the
would-create message when the album does not already exist, and the
would-add message when the asset list is non-empty. -/
theorem dry_run_issues_no_mutating_calls :
    (∀ (LIBRARY_ROOT : Option String) (srv : Server) (choice : AlbumChoice)
        (target_path : String) (target_is_dir : Bool)
        (walk : List (String × List String)),
      ((interactive_album_manager LIBRARY_ROOT srv choice target_path
          target_is_dir walk true).effects.all fun e => !e.isMutating) = true) ∧
    (∀ (srv : Server) (album_name : String) (asset_ids : List String),
      (album_exists srv album_name).val = false →
        ("[DRY-RUN] Would create album '" ++ album_name ++ "' with " ++
            toString asset_ids.length ++ " assets.") ∈
          (create_album srv album_name asset_ids true).prints) ∧
    (∀ (srv : Server) (album_id : String) (asset_ids : List String),
      asset_ids ≠ [] →
        ("[DRY-RUN] Would add " ++ toString asset_ids.length ++ " assets to album.") ∈
          (add_assets_to_album srv album_id asset_ids true).prints) := by
  refine ⟨?_, ?_, ?_⟩
  · intro LR srv choice tp isd walk
    cases choice with
    | createNew n =>
      by_cases hq : (collect_target_assets LR srv tp isd walk).val = []
      · simp [interactive_album_manager, hq, List.all_append,
          get_all_albums_effects, album_exists_effects,
          collect_target_assets_effects_not_mutating, isMutating_getAlbums]
      · simp [interactive_album_manager, hq, List.all_append,
          get_all_albums_effects, album_exists_effects,
          collect_target_assets_effects_not_mutating, create_album_dry_effects,
          isMutating_getAlbums]
    | existing aid n =>
      by_cases hq : (collect_target_assets LR srv tp isd walk).val = []
      · simp [interactive_album_manager, hq, List.all_append,
          get_all_albums_effects, collect_target_assets_effects_not_mutating,
          isMutating_getAlbums]
      · simp [interactive_album_manager, hq, List.all_append,
          get_all_albums_effects, collect_target_assets_effects_not_mutating,
          add_assets_dry_effects, isMutating_getAlbums]
  · intro srv n ids h
    simp [create_album, h]
  · intro srv aid ids h
    simp [add_assets_to_album, h]

theorem dry_run_issues_no_mutating_calls_witness :
    ((interactive_album_manager (some "/lib") sampleServer (.createNew "A")
        "/lib" true sampleWalk true).effects.all fun e => !e.isMutating) = true ∧
    ((album_exists sampleServer "A").val = false ∧
      ("[DRY-RUN] Would create album '" ++ "A" ++ "' with " ++
          toString (["1"] : List String).length ++ " assets.") ∈
        (create_album sampleServer "A" ["1"] true).prints) ∧
    ((["1"] : List String) ≠ [] ∧
      ("[DRY-RUN] Would add " ++ toString (["1"] : List String).length ++
          " assets to album.") ∈
        (add_assets_to_album sampleServer "alb1" ["1"] true).prints) :=
  ⟨dry_run_issues_no_mutating_calls.1 (some "/lib") sampleServer
      (.createNew "A") "/lib" true sampleWalk,
    ⟨by decide, dry_run_issues_no_mutating_calls.2.1 sampleServer "A" ["1"] (by decide)⟩,
    ⟨by decide, dry_run_issues_no_mutating_calls.2.2 sampleServer "alb1" ["1"] (by decide)⟩⟩

/-- C5: when the server's album list contains an album with the given name,
`create_album` issues no album-create POST (its only request is the GET of
the existence check), prints a skip message, and returns normally (`none`,
the Python `None`) — a no-op skip, not a failure. -/
theorem create_album_skips_existing (srv : Server) (album_name : String)
    (asset_ids : List String) (dry_run : Bool) (albums : List Album)
    (hal : srv.albums = .ok albums)
    (hmem : ∃ a ∈ albums, a.albumName = some album_name) :
    (create_album srv album_name asset_ids dry_run).val = none ∧
    (create_album srv album_name asset_ids dry_run).effects = [Effect.getAlbums] ∧
    ((create_album srv album_name asset_ids dry_run).effects.all
      fun e => !e.isMutating) = true ∧
    ("[SKIP] Album '" ++ album_name ++ "' already exists.") ∈
      (create_album srv album_name asset_ids dry_run).prints := by
  have hex : (album_exists srv album_name).val = true := by
    obtain ⟨a, ha, hname⟩ := hmem
    simp only [album_exists, get_all_albums, hal]
    rw [List.any_eq_true]
    exact ⟨a, ha, by simp [hname]⟩
  refine ⟨?_, ?_, ?_, ?_⟩
  · simp [create_album, hex]
  · simp [create_album, hex, album_exists_effects]
  · simp [create_album, hex, album_exists_effects, isMutating_getAlbums]
  · simp [create_album, hex]

theorem create_album_skips_existing_witness :
    sampleServer.albums = .ok [{ albumName := some "Holiday", id := some "alb1" }] ∧
    (∃ a ∈ [({ albumName := some "Holiday", id := some "alb1" } : Album)],
      a.albumName = some "Holiday") ∧
    (create_album sampleServer "Holiday" ["1"] false).val = none ∧
    (create_album sampleServer "Holiday" ["1"] false).effects = [Effect.getAlbums] ∧
    ((create_album sampleServer "Holiday" ["1"] false).effects.all
      fun e => !e.isMutating) = true ∧
    ("[SKIP] Album '" ++ "Holiday" ++ "' already exists.") ∈
      (create_album sampleServer "Holiday" ["1"] false).prints := by
  refine ⟨rfl, by decide, ?_⟩
  exact create_album_skips_existing sampleServer "Holiday" ["1"] false
    [{ albumName := some "Holiday", id := some "alb1" }] rfl (by decide)

/-- C6: when the target path is a file rather than a directory
(`os.path.isdir` reports false), asset collection issues exactly one folder
query, on the Immich path of the file's containing directory — no
recursive walk is performed, and the result is exactly that single
query's. -/
theorem file_target_queries_containing_dir (LIBRARY_ROOT : Option String)
    (srv : Server) (full_path : String) (walk : List (String × List String)) :
    (collect_target_assets LIBRARY_ROOT srv full_path false walk).effects =
      [Effect.getFolder (convert_to_immich_path LIBRARY_ROOT (pyDirname full_path))] ∧
    collect_target_assets LIBRARY_ROOT srv full_path false walk =
      get_folder_assets LIBRARY_ROOT srv (pyDirname full_path) := by
  refine ⟨?_, rfl⟩
  simp [collect_target_assets, get_folder_assets_effects]

/-- C7: every failing HTTP request is caught at its call site, a
human-readable error message is printed, and the operation degrades to an
empty or falsy result (`get_folder_assets` and `get_all_albums` return the
empty list, `add_assets_to_album` returns false); the modelled functions
are total, so no exception propagates past them. -/
theorem http_failures_degrade (srv : Server) :
    (∀ (LIBRARY_ROOT : Option String) (p e : String),
      srv.folderAssets (convert_to_immich_path LIBRARY_ROOT p) = .error e →
        (get_folder_assets LIBRARY_ROOT srv p).val = [] ∧
        ("[ERROR] Failed to get assets for '" ++
            convert_to_immich_path LIBRARY_ROOT p ++ "': " ++ e) ∈
          (get_folder_assets LIBRARY_ROOT srv p).prints) ∧
    (∀ e : String, srv.albums = .error e →
      (get_all_albums srv).val = [] ∧
      ("[ERROR] Failed to get albums: " ++ e) ∈ (get_all_albums srv).prints) ∧
    (∀ (album_id : String) (asset_ids : List String) (e : String),
      asset_ids ≠ [] → srv.addAssetsResp album_id asset_ids = .error e →
        (add_assets_to_album srv album_id asset_ids false).val = false ∧
        ("[ERROR] Failed to add assets to album: " ++ e) ∈
          (add_assets_to_album srv album_id asset_ids false).prints) := by
  refine ⟨?_, ?_, ?_⟩
  · intro LR p e h
    constructor
    · simp [get_folder_assets, h]
    · simp [get_folder_assets, h]
  · intro e h
    constructor
    · simp [get_all_albums, h]
    · simp [get_all_albums, h]
  · intro aid ids e hne h
    constructor
    · simp [add_assets_to_album, hne, h]
    · simp [add_assets_to_album, hne, h]

theorem http_failures_degrade_witness :
    (failServer.folderAssets (convert_to_immich_path none "/x") = .error "boom" ∧
      (get_folder_assets none failServer "/x").val = [] ∧
      ("[ERROR] Failed to get assets for '" ++
          convert_to_immich_path none "/x" ++ "': " ++ "boom") ∈
        (get_folder_assets none failServer "/x").prints) ∧
    (failServer.albums = .error "boom" ∧
      (get_all_albums failServer).val = [] ∧
      ("[ERROR] Failed to get albums: " ++ "boom") ∈ (get_all_albums failServer).prints) ∧
    ((["1"] : List String) ≠ [] ∧
      failServer.addAssetsResp "alb1" ["1"] = .error "boom" ∧
      (add_assets_to_album failServer "alb1" ["1"] false).val = false ∧
      ("[ERROR] Failed to add assets to album: " ++ "boom") ∈
        (add_assets_to_album failServer "alb1" ["1"] false).prints) :=
  ⟨⟨rfl, (http_failures_degrade failServer).1 none "/x" "boom" rfl⟩,
    ⟨rfl, (http_failures_degrade failServer).2.1 "boom" rfl⟩,
    ⟨by decide, rfl,
      (http_failures_degrade failServer).2.2 "alb1" ["1"] "boom" (by decide) rfl⟩⟩

theorem create_album_val (srv : Server) (n : String) (ids : List String) (d : Bool) :
    (create_album srv n ids d).val = none := by
  cases hv : (album_exists srv n).val with
  | true => simp [create_album, hv]
  | false =>
    cases d with
    | true => simp [create_album, hv]
    | false =>
      cases h : srv.createAlbumResp n ids with
      | ok u => simp [create_album, hv, h]
      | error e => simp [create_album, hv, h]

/-- C8: `create_album` returns `None` on every path (skip, dry-run,
successful creation, failed creation); consequently, in the new-album
branch of `interactive_album_manager` with dry-run off, the test
`if success or dry_run` is false even when the creation POST succeeded, so
the failure message `创建新相册失败` is printed although the album was in
fact created (the success line of `create_album` is emitted in the same
run). -/
theorem create_album_returns_none_and_manager_reports_failure :
    (∀ (srv : Server) (album_name : String) (asset_ids : List String) (dry_run : Bool),
      (create_album srv album_name asset_ids dry_run).val = none) ∧
    (∀ (LIBRARY_ROOT : Option String) (srv : Server) (album_name target_path : String)
        (target_is_dir : Bool) (walk : List (String × List String)),
      (collect_target_assets LIBRARY_ROOT srv target_path target_is_dir walk).val ≠ [] →
      (album_exists srv album_name).val = false →
      srv.createAlbumResp album_name
          (collect_target_assets LIBRARY_ROOT srv target_path target_is_dir walk).val =
        .ok () →
      "创建新相册失败" ∈
          (interactive_album_manager LIBRARY_ROOT srv (.createNew album_name)
            target_path target_is_dir walk false).prints ∧
        ("[OK] Album created: " ++ album_name ++ " (" ++
            toString (collect_target_assets LIBRARY_ROOT srv target_path
              target_is_dir walk).val.length ++ " assets)") ∈
          (interactive_album_manager LIBRARY_ROOT srv (.createNew album_name)
            target_path target_is_dir walk false).prints) := by
  refine ⟨create_album_val, ?_⟩
  intro LR srv n tp isd walk hne hex hok
  constructor
  · simp [interactive_album_manager, hne, create_album_val]
  · simp [interactive_album_manager, hne, create_album_val, create_album, hex, hok]

theorem create_album_returns_none_witness :
    (create_album sampleServer "A" ["7"] false).val = none ∧
    (collect_target_assets none sampleServer "/x/f.jpg" false []).val ≠ [] ∧
    (album_exists sampleServer "A").val = false ∧
    "创建新相册失败" ∈ (interactive_album_manager none sampleServer
      (.createNew "A") "/x/f.jpg" false [] false).prints :=
  ⟨create_album_returns_none_and_manager_reports_failure.1 sampleServer "A" ["7"] false,
    by decide, by decide,
    (create_album_returns_none_and_manager_reports_failure.2 none sampleServer "A"
      "/x/f.jpg" false [] (by decide) (by decide) rfl).1⟩

/-- C10: with an empty asset-identifier list, `add_assets_to_album` prints
an error message, returns `False`, and issues no HTTP request, for both
values of the dry-run flag. -/
theorem add_assets_empty_list_is_noop (srv : Server) (album_id : String) (dry_run : Bool) :
    add_assets_to_album srv album_id [] dry_run =
      { val := false, effects := [], prints := ["[ERROR] No assets to add."] } := by
  simp [add_assets_to_album]
